import Mathlib

/-!
Verification of the one-click-update deployment demo:
a mock control endpoint (src/mock-gcc/mock_gcc.py) and a polling
deployment agent (src/wrktalk-agent/agent.py), shallowly embedded in Lean.
Mutable module state of the Flask app becomes an explicit `GccState`
threaded through the handler functions; the agent's subprocess collaborator
becomes an environment record supplying each invocation's result.
-/

namespace OneClickUpdate

/-- Timestamp model for `datetime.now()`.  The `micro` field carries the
sub-second component, which `strftime('%Y%m%d%H%M%S')` discards. -/
structure DateTime where
  year : Nat
  month : Nat
  day : Nat
  hour : Nat
  minute : Nat
  second : Nat
  micro : Nat
deriving DecidableEq, Repr

/-- Zero-padded two-digit field, as `%m`, `%d`, `%H`, `%M`, `%S` render it. -/
def pad2 (n : Nat) : String :=
  if n < 10 then "0" ++ toString n else toString n

/-- Zero-padded four-digit year, as `%Y` renders it. -/
def pad4 (n : Nat) : String :=
  if n < 10 then "000" ++ toString n
  else if n < 100 then "00" ++ toString n
  else if n < 1000 then "0" ++ toString n
  else toString n

/-- The format string `'%Y%m%d%H%M%S'` used by `trigger_deployment`. -/
def strftimeYmdHMS (t : DateTime) : String :=
  pad4 t.year ++ pad2 t.month ++ pad2 t.day ++
    pad2 t.hour ++ pad2 t.minute ++ pad2 t.second

/-- Deployment id generated in `trigger_deployment`:
`f"dpl-{datetime.now().strftime('%Y%m%d%H%M%S')}"`. -/
def genId (t : DateTime) : String :=
  "dpl-" ++ strftimeYmdHMS t

/-- The `pending_update` dict built in `trigger_deployment`. -/
structure PendingUpdate where
  deployment_id : String
  image_tag : String
  created_at : DateTime
deriving DecidableEq, Repr

/-- A status-report payload as read by `report_status` via `data.get(...)`:
every field may be absent. -/
structure StatusReport where
  deployment_id : Option String
  client_id : Option Nat
  status : Option String
  message : Option String
  deployed_version : Option String
deriving DecidableEq, Repr

/-- An entry of the `deployment_status` dict: the posted payload plus the
server-assigned `reported_at` timestamp. -/
structure StoredReport where
  data : StatusReport
  reported_at : DateTime
deriving DecidableEq, Repr

/-- The mock GCC module state: the global `pending_update` slot and the
`deployment_status` dict (keyed by the possibly-absent reported id). -/
structure GccState where
  pending_update : Option PendingUpdate
  deployment_status : List (Option String × StoredReport)
deriving DecidableEq, Repr

/-- Python dict assignment `d[k] = v`: overwrite the entry for `k` if
present, else append it. -/
def upsert (k : Option String) (v : StoredReport) :
    List (Option String × StoredReport) → List (Option String × StoredReport)
  | [] => [(k, v)]
  | (k', v') :: rest =>
      if k' = k then (k, v) :: rest else (k', v') :: upsert k v rest

/-- The JSON body returned by `get_updates`. -/
inductive UpdateResponse where
  | noUpdate
  | update (deployment_id component tag action : String)
deriving DecidableEq, Repr

/-- Handler `GET /api/v1/clients/<client_id>/updates`: returns the global
pending update (if any) regardless of `client_id`. -/
def get_updates (client_id : Nat) (st : GccState) : UpdateResponse :=
  match st.pending_update with
  | some p => .update p.deployment_id "backend" p.image_tag "deploy"
  | none => .noUpdate

/-- Handler `POST /api/v1/clients/<client_id>/status`: stores the report
under `data.get('deployment_id')` with a `reported_at` stamp, then clears
`pending_update` iff `data.get('status') == 'success'`; replies
`{'status': 'received'}`. -/
def report_status (client_id : Nat) (data : StatusReport) (now : DateTime)
    (st : GccState) : GccState × String :=
  let st' : GccState :=
    { st with
      deployment_status :=
        upsert data.deployment_id ⟨data, now⟩ st.deployment_status }
  let st'' : GccState :=
    if data.status = some "success" then { st' with pending_update := none }
    else st'
  (st'', "received")

/-- The JSON body of a `trigger-deployment` request; `image_tag` may be
absent (`data.get('image_tag', 'v2.0.0')`). -/
structure TriggerBody where
  image_tag : Option String
deriving DecidableEq, Repr

/-- The JSON reply of `trigger_deployment`. -/
structure TriggerResponse where
  success : Bool
  deployment_id : String
  message : String
deriving DecidableEq, Repr

/-- Handler `POST /api/v1/admin/trigger-deployment`: overwrites the global
`pending_update` with a fresh request whose id derives from `now`, and
replies with that id. -/
def trigger_deployment (body : TriggerBody) (now : DateTime)
    (st : GccState) : GccState × TriggerResponse :=
  let image_tag := body.image_tag.getD "v2.0.0"
  let p : PendingUpdate := ⟨genId now, image_tag, now⟩
  ({ st with pending_update := some p },
   ⟨true, p.deployment_id, "Deployment to tag " ++ image_tag ++ " triggered"⟩)

/-- Fold a sequence of `trigger_deployment` calls over a state. -/
def applyTriggers (st : GccState) (calls : List (TriggerBody × DateTime)) :
    GccState :=
  calls.foldl (fun s c => (trigger_deployment c.1 c.2 s).1) st

/-- Result of a subprocess invocation
(`subprocess.run(cmd, capture_output=True, text=True)`). -/
structure CmdResult where
  returncode : Int
  stdout : String
  stderr : String
deriving DecidableEq, Repr

/-- Outcome of one `argocd app get -o json` poll attempt, abstracting the
subprocess result: `err` is a non-zero exit code (the loop just continues),
`malformed` is a zero exit code whose stdout fails JSON/field extraction
(the raised error propagates to the outer handler), `ok` is a zero exit
code yielding `status.sync.status` and `status.health.status`. -/
inductive QueryRes where
  | err (stderr : String)
  | malformed (msg : String)
  | ok (sync health : String)
deriving DecidableEq, Repr

/-- How one poll attempt is classified by the loop body in
`execute_deployment`: `none` means the loop sleeps and continues,
`some` is a terminating classification. -/
inductive PollStatus where
  | converged
  | degraded
  | malformedErr (msg : String)
deriving DecidableEq, Repr

/-- The per-attempt classification: a `Synced`+`Healthy` pair converges,
otherwise a `Degraded` health aborts, otherwise the loop continues
(including on non-zero query exit codes). -/
def pollCheck : QueryRes → Option PollStatus
  | .err _ => none
  | .malformed m => some (.malformedErr m)
  | .ok s h =>
      if s = "Synced" ∧ h = "Healthy" then some .converged
      else if h = "Degraded" then some .degraded
      else none

/-- Outcome of the whole convergence-poll phase: how it ended, or a
timeout when every attempt continued. -/
inductive PollOutcome where
  | stopped (st : PollStatus)
  | timedOut
deriving DecidableEq, Repr

/-- The `for attempt in range(max_attempts)` loop over the successive
query results, with its `for ... else: raise Timeout`.  Returns the
outcome and the number of queries actually issued. -/
def pollLoop : List QueryRes → PollOutcome × Nat
  | [] => (.timedOut, 0)
  | q :: rest =>
      match pollCheck q with
      | some st => (.stopped st, 1)
      | none =>
          let r := pollLoop rest
          (r.1, r.2 + 1)

/-- Maximum number of convergence-poll attempts (`max_attempts = 60`). -/
def max_attempts : Nat := 60

/-- An `argocd` CLI operation issued by `execute_deployment`
(authentication flags added by `build_argocd_command` elided). -/
inductive ArgoCmd where
  | set (app tag : String)
  | sync (app : String)
  | get (app : String)
deriving DecidableEq, Repr

/-- A status report the agent posts to the GCC (`report_status` payload). -/
structure Report where
  deployment_id : String
  status : String
  message : String
  deployed_version : Option String
deriving DecidableEq, Repr

/-- Environment supplying the subprocess results for one deployment
attempt: the `app set` result, the `app sync` result, and the result of
the i-th `app get` query. -/
structure ToolEnv where
  setRes : CmdResult
  syncRes : CmdResult
  query : Nat → QueryRes

/-- Observable trace of one `execute_deployment` invocation: the argocd
commands issued, the status reports posted, and the returned boolean. -/
structure ExecTrace where
  cmds : List ArgoCmd
  reports : List Report
  success : Bool
deriving DecidableEq, Repr

/-- Agent function `execute_deployment`: report `in_progress`, run
`argocd app set` (non-zero exit raises), run `argocd app sync` (non-zero
exit raises), report `in_progress` again, then poll up to `max_attempts`
times; the `except` block turns any raised error into a single `failed`
report embedding the error text. -/
def execute_deployment (appName deployment_id target_tag : String)
    (env : ToolEnv) : ExecTrace :=
  let rep1 : Report :=
    ⟨deployment_id, "in_progress", "Updating ArgoCD application", none⟩
  if env.setRes.returncode ≠ 0 then
    { cmds := [.set appName target_tag],
      reports := [rep1,
        ⟨deployment_id, "failed",
          "Deployment failed: ArgoCD set failed: " ++ env.setRes.stderr,
          none⟩],
      success := false }
  else if env.syncRes.returncode ≠ 0 then
    { cmds := [.set appName target_tag, .sync appName],
      reports := [rep1,
        ⟨deployment_id, "failed",
          "Deployment failed: ArgoCD sync failed: " ++ env.syncRes.stderr,
          none⟩],
      success := false }
  else
    let rep2 : Report :=
      ⟨deployment_id, "in_progress", "Waiting for pods to be healthy", none⟩
    let pr := pollLoop ((List.range max_attempts).map env.query)
    let cmds := [ArgoCmd.set appName target_tag, ArgoCmd.sync appName] ++
      List.replicate pr.2 (ArgoCmd.get appName)
    match pr.1 with
    | .stopped .converged =>
        { cmds := cmds,
          reports := [rep1, rep2,
            ⟨deployment_id, "success", "Deployment completed successfully",
              some target_tag⟩],
          success := true }
    | .stopped .degraded =>
        { cmds := cmds,
          reports := [rep1, rep2,
            ⟨deployment_id, "failed",
              "Deployment failed: Deployment health degraded", none⟩],
          success := false }
    | .stopped (.malformedErr m) =>
        { cmds := cmds,
          reports := [rep1, rep2,
            ⟨deployment_id, "failed", "Deployment failed: " ++ m, none⟩],
          success := false }
    | .timedOut =>
        { cmds := cmds,
          reports := [rep1, rep2,
            ⟨deployment_id, "failed",
              "Deployment failed: Timeout waiting for deployment", none⟩],
          success := false }

/-- Reports with a terminal status (`success` or `failed`). -/
def terminalReports (t : ExecTrace) : List Report :=
  t.reports.filter fun r => r.status == "success" || r.status == "failed"

/-- Result of an HTTP request as seen by the agent: a status code with a
parsed body, or a raised transport exception (timeouts included). -/
inductive HttpResult (α : Type) where
  | ok (status : Nat) (body : α)
  | exn (msg : String)
deriving DecidableEq, Repr

/-- Agent function `poll_for_updates`: returns the parsed body on
HTTP 200, and `None` on any other status code or on any exception
(connection errors and timeouts are caught inside the function). -/
def poll_for_updates (resp : HttpResult UpdateResponse) :
    Option UpdateResponse :=
  match resp with
  | .ok 200 body => some body
  | .ok _ _ => none
  | .exn _ => none

/-- The `has_update` field the main loop reads from a poll result. -/
def hasUpdate : UpdateResponse → Bool
  | .noUpdate => false
  | .update _ _ _ _ => true

/-- Error threshold of the main loop (`max_consecutive_errors = 10`). -/
def max_consecutive_errors : Nat := 10

/-- What one iteration of the main `while True` loop encounters: a normal
pass (the value `poll_for_updates` returned, and, when a deployment is
executed, whether `execute_deployment` returned success), a keyboard
interrupt, or an exception raised in the loop body. -/
inductive IterInput where
  | normal (update_data : Option UpdateResponse) (deploySuccess : Bool)
  | keyboardInterrupt
  | exception (msg : String)
deriving DecidableEq, Repr

/-- Result of one loop iteration: continue with the new
`consecutive_errors` value, or `sys.exit` with a code. -/
inductive IterResult where
  | next (consecutive_errors : Nat)
  | exit (code : Nat)
deriving DecidableEq, Repr

/-- One iteration of `main`'s loop body acting on `consecutive_errors`:
a detected update runs the deployment and resets the counter on success
or increments it on failure (without any threshold check); an empty or
failed poll resets the counter; an exception increments the counter and
exits with code 1 once it reaches the threshold. -/
def loopIter (errs : Nat) : IterInput → IterResult
  | .normal update_data deploySuccess =>
      match update_data with
      | some u =>
          if hasUpdate u then
            if deploySuccess then .next 0 else .next (errs + 1)
          else .next 0
      | none => .next 0
  | .keyboardInterrupt => .exit 0
  | .exception _ =>
      if max_consecutive_errors ≤ errs + 1 then .exit 1
      else .next (errs + 1)

/-- Run the main loop over a finite prefix of iteration inputs, stopping
early on `sys.exit`. -/
def runLoop (errs : Nat) : List IterInput → IterResult
  | [] => .next errs
  | e :: rest =>
      match loopIter errs e with
      | .next n => runLoop n rest
      | .exit c => .exit c

/-- Kind of an outbound call the agent makes. -/
inductive CallKind where
  | http
  | subprocessRun
deriving DecidableEq, Repr

/-- An outbound call site in agent.py, with the timeout argument passed
there (in seconds), if any. -/
structure OutboundCall where
  kind : CallKind
  site : String
  timeout : Option Nat
deriving DecidableEq, Repr

/-- Every outbound call site in agent.py: the three `requests` calls carry
explicit `timeout=` arguments; the four `subprocess.run` invocations of
the argocd CLI pass no timeout argument. -/
def agentOutboundCalls : List OutboundCall :=
  [⟨.http, "GET clients/id/updates in poll_for_updates", some 10⟩,
   ⟨.http, "POST clients/id/status in report_status", some 10⟩,
   ⟨.http, "GET /health in verify_prerequisites", some 5⟩,
   ⟨.subprocessRun, "argocd app set in execute_deployment", none⟩,
   ⟨.subprocessRun, "argocd app sync in execute_deployment", none⟩,
   ⟨.subprocessRun, "argocd app get in execute_deployment", none⟩,
   ⟨.subprocessRun, "argocd version in verify_prerequisites", none⟩]

/-! Helper lemmas. -/

theorem string_append_left_cancel {s a b : String}
    (h : s ++ a = s ++ b) : a = b := by
  have hd : s.data ++ a.data = s.data ++ b.data := by
    simpa [String.data_append] using congrArg String.data h
  have hab : a.data = b.data := List.append_cancel_left hd
  cases a
  cases b
  exact congrArg String.mk hab

/-! Claim theorems. -/

/-- Claim C1: a `ReportStatus` call with status `success` clears the
pending-deployment slot, whatever `deployment_id` the report carries;
a call with status `in_progress` or `failed` leaves the slot unchanged. -/
theorem report_status_success_clears_pending (client_id : Nat)
    (data : StatusReport) (now : DateTime) (st : GccState) :
    (data.status = some "success" →
      ((report_status client_id data now st).1).pending_update = none) ∧
    (data.status = some "in_progress" ∨ data.status = some "failed" →
      ((report_status client_id data now st).1).pending_update =
        st.pending_update) := by
  constructor
  · intro h
    simp [report_status, h]
  · intro h
    have hne : ¬ data.status = some "success" := by
      rcases h with h | h <;> simp [h]
    simp [report_status, hne]

/-- Witness for C1: a `success` report for `dpl-B` clears a pending
`dpl-A`, while a `failed` report leaves it in place. -/
theorem report_status_success_clears_pending_witness :
    (((report_status 101
        ⟨some "dpl-B", some 101, some "success", some "done", some "v2.0.0"⟩
        ⟨2025, 1, 20, 13, 0, 0, 0⟩
        ⟨some ⟨"dpl-A", "v1.0.0", ⟨2025, 1, 20, 12, 0, 0, 0⟩⟩, []⟩).1).pending_update
      = none) ∧
    (((report_status 101
        ⟨some "dpl-A", some 101, some "failed", some "oops", none⟩
        ⟨2025, 1, 20, 13, 0, 0, 0⟩
        ⟨some ⟨"dpl-A", "v1.0.0", ⟨2025, 1, 20, 12, 0, 0, 0⟩⟩, []⟩).1).pending_update
      = some ⟨"dpl-A", "v1.0.0", ⟨2025, 1, 20, 12, 0, 0, 0⟩⟩) :=
  ⟨(report_status_success_clears_pending 101
      ⟨some "dpl-B", some 101, some "success", some "done", some "v2.0.0"⟩
      ⟨2025, 1, 20, 13, 0, 0, 0⟩
      ⟨some ⟨"dpl-A", "v1.0.0", ⟨2025, 1, 20, 12, 0, 0, 0⟩⟩, []⟩).1 rfl,
   (report_status_success_clears_pending 101
      ⟨some "dpl-A", some 101, some "failed", some "oops", none⟩
      ⟨2025, 1, 20, 13, 0, 0, 0⟩
      ⟨some ⟨"dpl-A", "v1.0.0", ⟨2025, 1, 20, 12, 0, 0, 0⟩⟩, []⟩).2 (Or.inr rfl)⟩

/-- Claim C3: after any sequence of `TriggerDeployment` calls ending with
one for `(body, now)`, `GetPendingUpdate` returns exactly the most recent
request: `has_update` true with its id and tag; the pending slot holds at
most one request by construction. -/
theorem get_updates_returns_latest_trigger (st : GccState) (c : Nat)
    (calls : List (TriggerBody × DateTime)) (body : TriggerBody)
    (now : DateTime) :
    get_updates c (applyTriggers st (calls ++ [(body, now)])) =
      .update (genId now) "backend" (body.image_tag.getD "v2.0.0") "deploy" := by
  simp [applyTriggers, List.foldl_append, trigger_deployment, get_updates]

/-- Claim C9: `get_updates` ignores its `client_id` argument entirely,
so any two pollers receive identical responses from the same state. -/
theorem get_updates_ignores_client_id (st : GccState) (c1 c2 : Nat) :
    get_updates c1 st = get_updates c2 st := rfl

/-- Claim C10: a trigger body without `image_tag` succeeds and records a
pending request with the hard-coded default tag `v2.0.0`. -/
theorem trigger_without_image_tag_defaults (st : GccState) (now : DateTime)
    (body : TriggerBody) (h : body.image_tag = none) :
    ((trigger_deployment body now st).1).pending_update =
        some ⟨genId now, "v2.0.0", now⟩ ∧
      (trigger_deployment body now st).2 =
        ⟨true, genId now, "Deployment to tag v2.0.0 triggered"⟩ := by
  simp [trigger_deployment, h]

/-- Witness for C10 at a concrete state and timestamp. -/
theorem trigger_without_image_tag_defaults_witness :
    ((trigger_deployment ⟨none⟩ ⟨2025, 1, 20, 12, 0, 0, 0⟩ ⟨none, []⟩).1).pending_update
        = some ⟨genId ⟨2025, 1, 20, 12, 0, 0, 0⟩, "v2.0.0", ⟨2025, 1, 20, 12, 0, 0, 0⟩⟩ ∧
      (trigger_deployment ⟨none⟩ ⟨2025, 1, 20, 12, 0, 0, 0⟩ ⟨none, []⟩).2
        = ⟨true, genId ⟨2025, 1, 20, 12, 0, 0, 0⟩, "Deployment to tag v2.0.0 triggered"⟩ :=
  trigger_without_image_tag_defaults ⟨none, []⟩ ⟨2025, 1, 20, 12, 0, 0, 0⟩ ⟨none⟩ rfl

/-- Counterexample to C7: two trigger timestamps in the same second
(differing only in microseconds, which `%Y%m%d%H%M%S` discards) are
distinct creation times yet produce identical deployment ids. -/
theorem deployment_id_collision_within_second :
    genId ⟨2025, 1, 20, 12, 34, 56, 0⟩ = genId ⟨2025, 1, 20, 12, 34, 56, 500000⟩ ∧
      (⟨2025, 1, 20, 12, 34, 56, 0⟩ : DateTime) ≠ ⟨2025, 1, 20, 12, 34, 56, 500000⟩ := by
  constructor
  · rfl
  · decide

/-- Amended C7: deployment ids are unique exactly up to second
resolution — two creation times yield equal ids iff their
`%Y%m%d%H%M%S` renderings agree, so ids differ across distinct seconds
but collide within one second. -/
theorem genId_eq_iff_strftime_eq (t1 t2 : DateTime) :
    genId t1 = genId t2 ↔ strftimeYmdHMS t1 = strftimeYmdHMS t2 := by
  constructor
  · intro h
    exact string_append_left_cancel h
  · intro h
    unfold genId
    rw [h]

theorem pollCheck_converged_eq {q : QueryRes}
    (h : pollCheck q = some .converged) :
    q = QueryRes.ok "Synced" "Healthy" := by
  cases q with
  | err s => simp [pollCheck] at h
  | malformed m => simp [pollCheck] at h
  | ok s hl =>
      by_cases h1 : s = "Synced" ∧ hl = "Healthy"
      · rw [h1.1, h1.2]
      · by_cases h2 : hl = "Degraded" <;> simp [pollCheck, h1, h2] at h

theorem pollCheck_degraded_eq (s : String) :
    pollCheck (QueryRes.ok s "Degraded") = some .degraded := by
  have h1 : ¬ (s = "Synced" ∧ ("Degraded" : String) = "Healthy") := by
    simp
  simp [pollCheck, h1]

theorem pollLoop_converged_mem (qs : List QueryRes)
    (h : (pollLoop qs).1 = .stopped .converged) :
    QueryRes.ok "Synced" "Healthy" ∈ qs := by
  induction qs with
  | nil => simp [pollLoop] at h
  | cons q rest ih =>
      rcases hq : pollCheck q with _ | st
      · have h' : (pollLoop rest).1 = .stopped .converged := by
          simpa [pollLoop, hq] using h
        exact List.mem_cons_of_mem _ (ih h')
      · have hst : st = .converged := by
          have := h
          simp [pollLoop, hq] at this
          exact this
        subst hst
        rw [pollCheck_converged_eq hq]
        exact List.mem_cons_self _ _

theorem pollLoop_degraded_immediate (pre rest : List QueryRes) (s : String)
    (h : ∀ q ∈ pre, pollCheck q = none) :
    pollLoop (pre ++ QueryRes.ok s "Degraded" :: rest) =
      (.stopped .degraded, pre.length + 1) := by
  induction pre with
  | nil => simp [pollLoop, pollCheck_degraded_eq]
  | cons q pre ih =>
      have hq : pollCheck q = none := h q (List.mem_cons_self _ _)
      have h' := ih fun x hx => h x (List.mem_cons_of_mem _ hx)
      simp [pollLoop, hq, h']

theorem pollLoop_timeout_of_all_continue (qs : List QueryRes)
    (h : ∀ q ∈ qs, pollCheck q = none) :
    pollLoop qs = (.timedOut, qs.length) := by
  induction qs with
  | nil => rfl
  | cons q rest ih =>
      have hq : pollCheck q = none := h q (List.mem_cons_self _ _)
      have h' := ih fun x hx => h x (List.mem_cons_of_mem _ hx)
      simp [pollLoop, hq, h']

/-- Claim C2: convergence is declared only by a single query returning
sync `Synced` and health `Healthy` together; a `Degraded` health aborts
the poll immediately as a failure with attempts left over, even when
that same query reports `Synced`; and `execute_deployment` turns a
degraded poll outcome into a single `failed` report and a false return. -/
theorem convergence_simultaneous_and_degraded_aborts :
    (∀ qs : List QueryRes, (pollLoop qs).1 = .stopped .converged →
        QueryRes.ok "Synced" "Healthy" ∈ qs) ∧
    (∀ (pre rest : List QueryRes) (s : String),
        (∀ q ∈ pre, pollCheck q = none) →
        pollLoop (pre ++ QueryRes.ok s "Degraded" :: rest) =
          (.stopped .degraded, pre.length + 1)) ∧
    (∀ (appName deployment_id target_tag : String) (env : ToolEnv),
        env.setRes.returncode = 0 → env.syncRes.returncode = 0 →
        (pollLoop ((List.range max_attempts).map env.query)).1 =
          .stopped .degraded →
        (execute_deployment appName deployment_id target_tag env).success
            = false ∧
          terminalReports
              (execute_deployment appName deployment_id target_tag env) =
            [⟨deployment_id, "failed",
              "Deployment failed: Deployment health degraded", none⟩]) := by
  refine ⟨pollLoop_converged_mem, pollLoop_degraded_immediate, ?_⟩
  intro appName deployment_id target_tag env h1 h2 h3
  rcases hp : pollLoop ((List.range max_attempts).map env.query) with ⟨st, used⟩
  rw [hp] at h3
  simp at h3
  subst h3
  constructor <;> simp [execute_deployment, h1, h2, hp, terminalReports]

/-- Witness for C2: the sequence Progressing/Healthy then Synced/Healthy
converges and contains the simultaneous pair; a first-query
Synced/Degraded aborts as degraded after one query despite a remaining
attempt; and a degraded poll makes the concrete deployment fail. -/
theorem convergence_simultaneous_and_degraded_aborts_witness :
    QueryRes.ok "Synced" "Healthy" ∈
        [QueryRes.ok "Progressing" "Healthy", QueryRes.ok "Synced" "Healthy"] ∧
    pollLoop ([QueryRes.ok "Progressing" "Healthy"] ++
        QueryRes.ok "Synced" "Degraded" :: [QueryRes.err ""]) =
      (.stopped .degraded, 2) ∧
    (execute_deployment "wrktalk-test-app" "dpl-20250120123456" "v2.0.0"
        ⟨⟨0, "", ""⟩, ⟨0, "", ""⟩, fun _ => QueryRes.ok "Synced" "Degraded"⟩).success
      = false :=
  ⟨convergence_simultaneous_and_degraded_aborts.1
      [QueryRes.ok "Progressing" "Healthy", QueryRes.ok "Synced" "Healthy"] rfl,
   convergence_simultaneous_and_degraded_aborts.2.1
      [QueryRes.ok "Progressing" "Healthy"] [QueryRes.err ""] "Synced"
      (by intro q hq; simp at hq; subst hq; rfl),
   (convergence_simultaneous_and_degraded_aborts.2.2
      "wrktalk-test-app" "dpl-20250120123456" "v2.0.0"
      ⟨⟨0, "", ""⟩, ⟨0, "", ""⟩, fun _ => QueryRes.ok "Synced" "Degraded"⟩
      rfl rfl rfl).1⟩

/-- Claim C4: when `argocd app set` exits non-zero, the attempt issues no
sync and no status query (its command trace is the single set call) and
posts exactly one terminal report: `failed`, embedding the captured
stderr text. -/
theorem set_failure_aborts_before_sync
    (appName deployment_id target_tag : String) (env : ToolEnv)
    (h : env.setRes.returncode ≠ 0) :
    (execute_deployment appName deployment_id target_tag env).cmds =
        [ArgoCmd.set appName target_tag] ∧
    (execute_deployment appName deployment_id target_tag env).reports =
        [⟨deployment_id, "in_progress", "Updating ArgoCD application", none⟩,
         ⟨deployment_id, "failed",
           "Deployment failed: ArgoCD set failed: " ++ env.setRes.stderr,
           none⟩] ∧
    terminalReports (execute_deployment appName deployment_id target_tag env) =
        [⟨deployment_id, "failed",
          "Deployment failed: ArgoCD set failed: " ++ env.setRes.stderr,
          none⟩] ∧
    (execute_deployment appName deployment_id target_tag env).success = false := by
  refine ⟨?_, ?_, ?_, ?_⟩ <;> simp [execute_deployment, h, terminalReports]

/-- Witness for C4 at a concrete failing set step. -/
theorem set_failure_aborts_before_sync_witness :
    (execute_deployment "wrktalk-test-app" "dpl-20250120123456" "v2.0.0"
        ⟨⟨1, "", "permission denied"⟩, ⟨0, "", ""⟩, fun _ => QueryRes.err ""⟩).cmds =
        [ArgoCmd.set "wrktalk-test-app" "v2.0.0"] ∧
    (execute_deployment "wrktalk-test-app" "dpl-20250120123456" "v2.0.0"
        ⟨⟨1, "", "permission denied"⟩, ⟨0, "", ""⟩, fun _ => QueryRes.err ""⟩).reports =
        [⟨"dpl-20250120123456", "in_progress", "Updating ArgoCD application", none⟩,
         ⟨"dpl-20250120123456", "failed",
           "Deployment failed: ArgoCD set failed: " ++ "permission denied", none⟩] ∧
    terminalReports (execute_deployment "wrktalk-test-app" "dpl-20250120123456"
        "v2.0.0"
        ⟨⟨1, "", "permission denied"⟩, ⟨0, "", ""⟩, fun _ => QueryRes.err ""⟩) =
        [⟨"dpl-20250120123456", "failed",
          "Deployment failed: ArgoCD set failed: " ++ "permission denied", none⟩] ∧
    (execute_deployment "wrktalk-test-app" "dpl-20250120123456" "v2.0.0"
        ⟨⟨1, "", "permission denied"⟩, ⟨0, "", ""⟩, fun _ => QueryRes.err ""⟩).success
      = false :=
  set_failure_aborts_before_sync "wrktalk-test-app" "dpl-20250120123456" "v2.0.0"
    ⟨⟨1, "", "permission denied"⟩, ⟨0, "", ""⟩, fun _ => QueryRes.err ""⟩
    (by decide)

/-- Claim C5: when all `max_attempts` poll attempts pass without
convergence, degradation, or a parse error, the attempt posts exactly one
terminal report: `failed` with the timeout message, and no `success`. -/
theorem exhausted_attempts_report_timeout
    (appName deployment_id target_tag : String) (env : ToolEnv)
    (h1 : env.setRes.returncode = 0) (h2 : env.syncRes.returncode = 0)
    (h3 : ∀ i, i < max_attempts → pollCheck (env.query i) = none) :
    (execute_deployment appName deployment_id target_tag env).reports =
        [⟨deployment_id, "in_progress", "Updating ArgoCD application", none⟩,
         ⟨deployment_id, "in_progress", "Waiting for pods to be healthy", none⟩,
         ⟨deployment_id, "failed",
           "Deployment failed: Timeout waiting for deployment", none⟩] ∧
    terminalReports (execute_deployment appName deployment_id target_tag env) =
        [⟨deployment_id, "failed",
          "Deployment failed: Timeout waiting for deployment", none⟩] ∧
    (execute_deployment appName deployment_id target_tag env).success = false := by
  have hall : ∀ q ∈ (List.range max_attempts).map env.query,
      pollCheck q = none := by
    intro q hq
    rcases List.mem_map.mp hq with ⟨i, hi, rfl⟩
    exact h3 i (List.mem_range.mp hi)
  have hpl := pollLoop_timeout_of_all_continue _ hall
  refine ⟨?_, ?_, ?_⟩ <;> simp [execute_deployment, h1, h2, hpl, terminalReports]

/-- Witness for C5: every query exits non-zero, so all 60 attempts pass
and the concrete attempt reports the single timeout failure. -/
theorem exhausted_attempts_report_timeout_witness :
    (execute_deployment "wrktalk-test-app" "dpl-20250120123456" "v2.0.0"
        ⟨⟨0, "", ""⟩, ⟨0, "", ""⟩, fun _ => QueryRes.err "conn refused"⟩).reports =
        [⟨"dpl-20250120123456", "in_progress", "Updating ArgoCD application", none⟩,
         ⟨"dpl-20250120123456", "in_progress", "Waiting for pods to be healthy", none⟩,
         ⟨"dpl-20250120123456", "failed",
           "Deployment failed: Timeout waiting for deployment", none⟩] ∧
    terminalReports (execute_deployment "wrktalk-test-app" "dpl-20250120123456"
        "v2.0.0" ⟨⟨0, "", ""⟩, ⟨0, "", ""⟩, fun _ => QueryRes.err "conn refused"⟩) =
        [⟨"dpl-20250120123456", "failed",
          "Deployment failed: Timeout waiting for deployment", none⟩] ∧
    (execute_deployment "wrktalk-test-app" "dpl-20250120123456" "v2.0.0"
        ⟨⟨0, "", ""⟩, ⟨0, "", ""⟩, fun _ => QueryRes.err "conn refused"⟩).success
      = false :=
  exhausted_attempts_report_timeout "wrktalk-test-app" "dpl-20250120123456"
    "v2.0.0" ⟨⟨0, "", ""⟩, ⟨0, "", ""⟩, fun _ => QueryRes.err "conn refused"⟩
    rfl rfl (fun i _ => rfl)

/-- Counterexample to C6: not every outbound call of the agent carries a
bounded timeout — the `subprocess.run` invocations of the argocd CLI pass
none. -/
theorem not_every_outbound_call_has_timeout :
    ¬ (∀ c ∈ agentOutboundCalls, c.timeout ≠ none) := by
  decide

/-- Amended C6: only the HTTP calls to the Control Endpoint carry bounded
timeouts (and a raised transport exception, timeouts included, makes the
poll return no update, i.e. is treated as a failed poll); the four
subprocess invocations of the sync tool set no timeout and may block. -/
theorem outbound_timeouts_http_only :
    (∀ c ∈ agentOutboundCalls, (c.timeout ≠ none ↔ c.kind = .http)) ∧
    (∀ m, poll_for_updates (HttpResult.exn m) = none) := by
  constructor
  · decide
  · intro m
    rfl

/-- Witness for amended C6: the poll call site carries a timeout and a
transport exception yields an empty poll result. -/
theorem outbound_timeouts_http_only_witness :
    ((OutboundCall.mk .http "GET clients/id/updates in poll_for_updates"
        (some 10)).timeout ≠ none ↔
      (OutboundCall.mk .http "GET clients/id/updates in poll_for_updates"
        (some 10)).kind = .http) ∧
    poll_for_updates (HttpResult.exn "ReadTimeout") = none :=
  ⟨outbound_timeouts_http_only.1
      (OutboundCall.mk .http "GET clients/id/updates in poll_for_updates"
        (some 10)) (by decide),
   outbound_timeouts_http_only.2 "ReadTimeout"⟩

theorem runLoop_exception_streak (msg : String) :
    ∀ (k n : Nat), n < max_consecutive_errors →
      runLoop n (List.replicate k (IterInput.exception msg)) =
        if max_consecutive_errors ≤ n + k then .exit 1 else .next (n + k) := by
  intro k
  induction k with
  | zero =>
      intro n hn
      simp [runLoop, Nat.not_le.mpr hn]
  | succ k ih =>
      intro n hn
      rw [List.replicate_succ]
      by_cases hth : max_consecutive_errors ≤ n + 1
      · have hcond : max_consecutive_errors ≤ n + (k + 1) := by omega
        simp [runLoop, loopIter, hth, hcond]
      · have hn' : n + 1 < max_consecutive_errors := Nat.lt_of_not_le hth
        have heq : n + 1 + k = n + (k + 1) := by omega
        have h' := ih (n + 1) hn'
        rw [heq] at h'
        simp [runLoop, loopIter, hth, h']

theorem runLoop_failed_deploy_streak (u : UpdateResponse)
    (hu : hasUpdate u = true) :
    ∀ (k n : Nat),
      runLoop n (List.replicate k (IterInput.normal (some u) false)) =
        .next (n + k) := by
  intro k
  induction k with
  | zero =>
      intro n
      simp [runLoop]
  | succ k ih =>
      intro n
      rw [List.replicate_succ]
      have heq : n + 1 + k = n + (k + 1) := by omega
      have h' := ih (n + 1)
      rw [heq] at h'
      simp [runLoop, loopIter, hu, h']

/-- Counterexample to C8: ten consecutive counted errors with no
intervening successful cycle do not terminate the process — ten failed
deployment executions leave the loop running with the counter at ten
(the threshold check runs only in the exception branch), and a
transport-failed poll (which surfaces as no update) resets the counter
instead of counting. -/
theorem error_threshold_not_enforced_for_failed_deploys :
    runLoop 0 (List.replicate 10 (IterInput.normal
        (some (UpdateResponse.update "dpl-20250120123456" "backend"
          "v2.0.0" "deploy")) false)) = .next 10 ∧
    loopIter 9 (IterInput.normal none false) = .next 0 := by
  constructor
  · decide
  · rfl

/-- Amended C8: only exceptions raised in the loop body are checked
against the threshold — a streak of at least ten of them exits with code
1; failed deployment executions increment the counter but a streak of
them of any length never exits; an empty or transport-failed poll and a
successful deployment reset the counter to zero. -/
theorem error_counter_semantics :
    (∀ (k : Nat) (m : String), max_consecutive_errors ≤ k →
        runLoop 0 (List.replicate k (IterInput.exception m)) = .exit 1) ∧
    (∀ (k : Nat) (u : UpdateResponse), hasUpdate u = true →
        runLoop 0 (List.replicate k (IterInput.normal (some u) false)) =
          .next k) ∧
    (∀ (n : Nat) (u : UpdateResponse),
        loopIter n (.normal none false) = .next 0 ∧
        loopIter n (.normal (some u) true) = .next 0) := by
  refine ⟨?_, ?_, ?_⟩
  · intro k m hk
    have h := runLoop_exception_streak m k 0 (by decide)
    rw [h, if_pos (by omega)]
  · intro k u hu
    simpa using runLoop_failed_deploy_streak u hu k 0
  · intro n u
    refine ⟨rfl, ?_⟩
    cases hu : hasUpdate u <;> simp [loopIter, hu]

/-- Witness for amended C8: ten straight exceptions exit with code 1;
twelve straight failed deployments keep running with counter twelve; a
successful cycle resets the counter from nine. -/
theorem error_counter_semantics_witness :
    runLoop 0 (List.replicate 10 (IterInput.exception "boom")) = .exit 1 ∧
    runLoop 0 (List.replicate 12 (IterInput.normal
        (some (UpdateResponse.update "dpl-20250120123456" "backend"
          "v2.0.0" "deploy")) false)) = .next 12 ∧
    loopIter 9 (IterInput.normal
        (some (UpdateResponse.update "dpl-20250120123456" "backend"
          "v2.0.0" "deploy")) true) = .next 0 :=
  ⟨error_counter_semantics.1 10 "boom" (by decide),
   error_counter_semantics.2.1 12
      (UpdateResponse.update "dpl-20250120123456" "backend" "v2.0.0" "deploy")
      rfl,
   (error_counter_semantics.2.2 9
      (UpdateResponse.update "dpl-20250120123456" "backend" "v2.0.0" "deploy")).2⟩

end OneClickUpdate
